import Mathlib

/-!
# Verification of the metered-translation quota/usage core

Shallow embedding of the quota/usage-ledger core of the repository
(`api/_shared.py`, `api/services/translate_service.py`, `backend/main.py`).
Python integers are modelled as `Int` (token counts read from the store) or
`Nat` (character counts, row ids); calendar dates as a `Date` record; the
Supabase store as an explicit `Store` record threaded through every
operation; the external translation provider as an input `(ok, result)`
pair, mirroring the `(ok, result, elapsed)` triple of `translate_text_sync`
(whose `elapsed` component the callers ignore).
-/

/-- A calendar date as Python's `datetime.date` exposes it:
`year`, `month`, `day`. Only `(year, month)` comparisons and the literal
value matter to the accounting core. -/
structure Date where
  year : Int
  month : Nat
  day : Nat
deriving DecidableEq, Repr

/-- In-memory snapshot of the authenticated user, as built by
`get_current_user` in `api/_shared.py` / `backend/main.py`. -/
structure AuthedUser where
  auth_user_id : String
  user_row_id : Nat
  monthly_quota_tokens : Int
  used_tokens_this_period : Int
  billing_period_start : Date
deriving DecidableEq, Repr

/-- A row of the `users` table (the fields the core reads/writes). -/
structure UserRow where
  id : Nat
  monthly_quota_tokens : Int
  used_tokens_this_period : Int
  billing_period_start : Date
deriving DecidableEq, Repr

/-- A row of the append-only `usage_logs` table, exactly the dict inserted
by the translate endpoints. -/
structure UsageLog where
  user_id : Nat
  model : String
  input_chars : Nat
  estimated_tokens : Nat
  cost_in_cents : Int
  original_text : String
  translated_text : String
deriving DecidableEq, Repr

/-- A row of the `user_monthly_usage` aggregate table. `updated_at` is an
opaque clock stamp (the code writes `datetime.utcnow().isoformat()`). -/
structure MonthlyUsageRow where
  id : Nat
  user_id : Nat
  period_start : Date
  total_tokens : Int
  total_requests : Int
  updated_at : Nat
deriving DecidableEq, Repr

/-- The external Supabase store: the three tables the core touches, plus
the id the database would assign to the next inserted aggregate row. -/
structure Store where
  users : List UserRow
  usage_logs : List UsageLog
  user_monthly_usage : List MonthlyUsageRow
  next_agg_id : Nat
deriving DecidableEq, Repr

/-- Failure outcomes of the translate pipeline.  The service layer raises
`ValueError(f"本月额度不足，剩余 {remaining} tokens，需要 {est_tokens} tokens")`
for quota exhaustion and `RuntimeError(f"翻译失败: {result}")` for a provider
failure; the payload values interpolated into those messages are carried as
fields here. -/
inductive TranslateError where
  | quotaInsufficient (remaining : Int) (requested : Nat) : TranslateError
  | providerFailure (message : String) : TranslateError
deriving DecidableEq, Repr

/-- The human-readable detail string attached to each error (`str(e)` as the
route layer forwards it; identical literal text at both raise sites). -/
def translate_error_detail : TranslateError → String
  | .quotaInsufficient remaining requested =>
      "本月额度不足，剩余 " ++ toString remaining ++ " tokens，需要 "
        ++ toString requested ++ " tokens"
  | .providerFailure message => "翻译失败: " ++ message

/-- HTTP status the route layer (`api/routes/translate.py`) maps each error
kind to: `ValueError` (quota) becomes 402, `RuntimeError` (provider) 500.
`backend/main.py` raises the same statuses directly. -/
def translate_error_status : TranslateError → Nat
  | .quotaInsufficient _ _ => 402
  | .providerFailure _ => 500

/-- `estimate_tokens` from `api/_shared.py`:
`chars = len(text); return max(1, math.ceil(chars / 1.5))`. -/
def estimate_tokens (text : String) : Nat :=
  let chars := text.length
  max 1 (⌈(chars : ℚ) / 1.5⌉).toNat

/-- `refresh_billing_period` from `api/_shared.py`.  The `today` read from
the system clock is passed explicitly.  When the month rolled over, the code
issues `users.update({used: 0, bps: today}).eq("id", rid)`, reads the
updated row back (`res.data[0]`, crashing if absent — hence `Option`), and
mutates the snapshot, re-reading `monthly_quota_tokens` from the returned
row.  The `Bool` records whether a store write was performed. -/
def refresh_billing_period (sb : Store) (user : AuthedUser) (today : Date) :
    Option (AuthedUser × Store × Bool) :=
  if (today.year, today.month)
      ≠ (user.billing_period_start.year, user.billing_period_start.month) then
    let users' := sb.users.map fun r =>
      if r.id = user.user_row_id then
        { r with used_tokens_this_period := 0, billing_period_start := today }
      else r
    match users'.find? (fun r => decide (r.id = user.user_row_id)) with
    | none => none
    | some row =>
        some ({ user with
                  used_tokens_this_period := 0,
                  billing_period_start := today,
                  monthly_quota_tokens := row.monthly_quota_tokens },
              { sb with users := users' }, true)
  else
    some (user, sb, false)

/-- `sb.table("usage_logs").insert(entry).execute()`: append-only insert. -/
def insert_usage_log (sb : Store) (entry : UsageLog) : Store :=
  { sb with usage_logs := sb.usage_logs ++ [entry] }

/-- The `user_monthly_usage` upsert block of the translate endpoints:
select by `(user_id, period_start)`; if a row exists, update it by `id`
(absolute values computed from the selected row), else insert a fresh row
with `total_tokens = est`, `total_requests = 1` (database assigns the id). -/
def upsert_monthly_usage (sb : Store) (uid : Nat) (ps : Date) (est : Nat)
    (now : Nat) : Store :=
  match sb.user_monthly_usage.find?
      (fun r => decide (r.user_id = uid ∧ r.period_start = ps)) with
  | some row =>
      { sb with user_monthly_usage := sb.user_monthly_usage.map fun r =>
          if r.id = row.id then
            { r with
                total_tokens := row.total_tokens + (est : Int),
                total_requests := row.total_requests + 1,
                updated_at := now }
          else r }
  | none =>
      { sb with
          user_monthly_usage := sb.user_monthly_usage ++
            [{ id := sb.next_agg_id, user_id := uid, period_start := ps,
               total_tokens := (est : Int), total_requests := 1,
               updated_at := now }],
          next_agg_id := sb.next_agg_id + 1 }

/-- `sb.table("users").update({"used_tokens_this_period": new_used}).eq("id", rid)`. -/
def update_user_used (sb : Store) (rid : Nat) (new_used : Int) : Store :=
  { sb with users := sb.users.map fun r =>
      if r.id = rid then { r with used_tokens_this_period := new_used } else r }

/-! ## Duplicated definitions from `backend/main.py`

`backend/main.py` carries its own copies of `estimate_tokens`,
`refresh_billing_period` and the translate pipeline (inline in the
`/translate` endpoint).  They are embedded separately below so their
equality with the `api/` layer is a theorem, not an assumption.  The only
textual difference in the endpoints is the raise type (`HTTPException`
402/500 in the backend versus `ValueError`/`RuntimeError` in the service,
with identical message payloads); the embedded error values coincide. -/

/-- `estimate_tokens` as duplicated in `backend/main.py`. -/
def estimate_tokens_backend (text : String) : Nat :=
  let chars := text.length
  max 1 (⌈(chars : ℚ) / 1.5⌉).toNat

/-- `refresh_billing_period` as duplicated in `backend/main.py`. -/
def refresh_billing_period_backend (sb : Store) (user : AuthedUser)
    (today : Date) : Option (AuthedUser × Store × Bool) :=
  if (today.year, today.month)
      ≠ (user.billing_period_start.year, user.billing_period_start.month) then
    let users' := sb.users.map fun r =>
      if r.id = user.user_row_id then
        { r with used_tokens_this_period := 0, billing_period_start := today }
      else r
    match users'.find? (fun r => decide (r.id = user.user_row_id)) with
    | none => none
    | some row =>
        some ({ user with
                  used_tokens_this_period := 0,
                  billing_period_start := today,
                  monthly_quota_tokens := row.monthly_quota_tokens },
              { sb with users := users' }, true)
  else
    some (user, sb, false)

/-- `TranslateService.translate_text` from
`api/services/translate_service.py`, the quota-gated translate pipeline:
refresh the billing period, estimate the cost, admit iff
`est_tokens ≤ remaining`, call the provider, and on provider success commit
the three ledger writes (log append, aggregate upsert keyed by the
month-start of `billing_period_start`, account overwrite to
`used_before + est`).  `prov` is the `(ok, result)` outcome of
`translate_text_sync`; `now` the clock stamp for `updated_at`;
`target_lang` is forwarded to the provider and never touches accounting.
Returns `(translated_text, estimated_tokens, remaining_tokens)`. -/
def translate_service (sb : Store) (user0 : AuthedUser) (text : String)
    (target_lang : String) (today : Date) (prov : Bool × String) (now : Nat) :
    Option (Except TranslateError (String × Nat × Int) × Store) :=
  match refresh_billing_period sb user0 today with
  | none => none
  | some (user, sb1, _) =>
    let est_tokens := estimate_tokens text
    let remaining := user.monthly_quota_tokens - user.used_tokens_this_period
    if (est_tokens : Int) > remaining then
      some (.error (.quotaInsufficient remaining est_tokens), sb1)
    else
      match prov with
      | (false, result) => some (.error (.providerFailure result), sb1)
      | (true, result) =>
        let new_used := user.used_tokens_this_period + (est_tokens : Int)
        let sb2 := insert_usage_log sb1
          { user_id := user.user_row_id, model := "glm-4.5",
            input_chars := text.length, estimated_tokens := est_tokens,
            cost_in_cents := 0, original_text := text,
            translated_text := result }
        let period_start : Date :=
          ⟨user.billing_period_start.year, user.billing_period_start.month, 1⟩
        let sb3 := upsert_monthly_usage sb2 user.user_row_id period_start
          est_tokens now
        let sb4 := update_user_used sb3 user.user_row_id new_used
        some (.ok (result, est_tokens,
                   user.monthly_quota_tokens - new_used), sb4)

/-- The `/translate` endpoint body of `backend/main.py` (after
authentication), duplicated from the service layer: period refresh, cost
estimate, quota gate (`HTTPException 402` carrying the same
remaining/requested payload), provider call, and the three ledger writes,
returning the same `TranslateResponse` triple. -/
def translate_backend (sb : Store) (user0 : AuthedUser) (text : String)
    (target_lang : String) (today : Date) (prov : Bool × String) (now : Nat) :
    Option (Except TranslateError (String × Nat × Int) × Store) :=
  match refresh_billing_period_backend sb user0 today with
  | none => none
  | some (user, sb1, _) =>
    let est_tokens := estimate_tokens_backend text
    let remaining := user.monthly_quota_tokens - user.used_tokens_this_period
    if (est_tokens : Int) > remaining then
      some (.error (.quotaInsufficient remaining est_tokens), sb1)
    else
      match prov with
      | (false, result) => some (.error (.providerFailure result), sb1)
      | (true, result) =>
        let new_used := user.used_tokens_this_period + (est_tokens : Int)
        let sb2 := insert_usage_log sb1
          { user_id := user.user_row_id, model := "glm-4.5",
            input_chars := text.length, estimated_tokens := est_tokens,
            cost_in_cents := 0, original_text := text,
            translated_text := result }
        let period_start : Date :=
          ⟨user.billing_period_start.year, user.billing_period_start.month, 1⟩
        let sb3 := upsert_monthly_usage sb2 user.user_row_id period_start
          est_tokens now
        let sb4 := update_user_used sb3 user.user_row_id new_used
        some (.ok (result, est_tokens,
                   user.monthly_quota_tokens - new_used), sb4)

/-! ## Supporting lemmas -/

/-- On natural character counts, `max(1, math.ceil(chars / 1.5))` is
`max 1 ((2·chars + 2) / 3)` with truncating natural division: the rational
ceiling of `chars / 1.5` is the ceiling division `⌈2·chars / 3⌉`. -/
theorem estimate_tokens_eq (text : String) :
    estimate_tokens text = max 1 ((2 * text.length + 2) / 3) := by
  unfold estimate_tokens
  set n := text.length with hn
  set m := (2 * n + 2) / 3 with hmdef
  have hm1 : 2 * n ≤ 3 * m := by omega
  have hm2 : 3 * m < 2 * n + 3 := by omega
  have h3 : (0 : ℚ) < 3 := by norm_num
  have hceil : ⌈(n : ℚ) / 1.5⌉ = (m : ℕ) := by
    rw [Int.ceil_eq_iff]
    rw [show (1.5 : ℚ) = 3 / 2 by norm_num, div_div_eq_mul_div]
    push_cast
    constructor
    · rw [lt_div_iff₀ h3]
      have : (3 : ℚ) * m < 2 * n + 3 := by exact_mod_cast hm2
      linarith
    · rw [div_le_iff₀ h3]
      have : 2 * (n : ℚ) ≤ 3 * m := by exact_mod_cast hm1
      linarith
  show 1 ⊔ (⌈(n : ℚ) / 1.5⌉).toNat = 1 ⊔ m
  rw [hceil]
  simp

/-! ## Concrete sample data used by witness theorems -/

/-- 2024-01-15, a mid-month date in January 2024. -/
def sampleJan : Date := ⟨2024, 1, 15⟩

/-- 2024-02-10, a date in the following month. -/
def sampleFeb : Date := ⟨2024, 2, 10⟩

/-- A user snapshot: quota 1000, used 900, period started 2024-01-15. -/
def sampleUser : AuthedUser := ⟨"auth-1", 1, 1000, 900, sampleJan⟩

/-- The matching `users` table row. -/
def sampleRow : UserRow := ⟨1, 1000, 900, sampleJan⟩

/-- A store holding just that user, no logs, no aggregate rows. -/
def sampleStore : Store := ⟨[sampleRow], [], [], 7⟩

/-! ## Claim theorems -/

/-- C5 — Token Estimator: `estimate(text) = ceil(character_count / 1.5)`
floored at 1 (here in the equivalent truncating-division form proved in
`estimate_tokens_eq`), hence `estimate(text) ≥ 1` for every input including
the empty string; the function is deterministic in the character count and
monotonically non-decreasing in it. -/
theorem c5_token_estimator :
    (∀ text : String, 1 ≤ estimate_tokens text) ∧
    (∀ t u : String, t.length = u.length →
      estimate_tokens t = estimate_tokens u) ∧
    (∀ t u : String, t.length ≤ u.length →
      estimate_tokens t ≤ estimate_tokens u) := by
  refine ⟨fun text => ?_, fun t u h => ?_, fun t u h => ?_⟩
  · rw [estimate_tokens_eq]
    exact le_max_left 1 _
  · rw [estimate_tokens_eq, estimate_tokens_eq, h]
  · rw [estimate_tokens_eq, estimate_tokens_eq]
    exact max_le_max le_rfl (Nat.div_le_div_right (by omega))

/-- Witness for C5 at concrete inputs: the empty string costs at least one
token, equal-length texts cost the same, and a longer text costs no less. -/
theorem c5_token_estimator_witness :
    1 ≤ estimate_tokens "" ∧
    estimate_tokens "ab" = estimate_tokens "cd" ∧
    estimate_tokens "a" ≤ estimate_tokens "abc" :=
  ⟨c5_token_estimator.1 "",
   c5_token_estimator.2.1 "ab" "cd" rfl,
   c5_token_estimator.2.2 "a" "abc" (by decide)⟩

/-- C10 — Duplicate implementation equivalence: the standalone backend
endpoint (`backend/main.py`) and the api-layer service
(`api/services/translate_service.py`) are equal as functions of the account
snapshot, text, target language, clock and store state — same admit/reject
decision, same store writes with the same field values, same returned
`(translated_text, estimated_tokens, remaining_tokens)` — and their
`estimate_tokens` and `refresh_billing_period` helpers are equal as
functions. -/
theorem c10_duplicate_equivalence :
    estimate_tokens_backend = estimate_tokens ∧
    refresh_billing_period_backend = refresh_billing_period ∧
    translate_backend = translate_service :=
  ⟨rfl, rfl, rfl⟩

/-- C3 — Billing Period Manager: if `today`'s (year, month) differs from
`billing_period_start`'s, `refresh` returns an account with
`used_tokens_this_period = 0` and `billing_period_start` equal to the
literal value of `today` (day included, not normalized to month-start),
having persisted that change to the user's store row before returning
(write flag `true`, row updated, other tables untouched); if the
(year, month) agree, the account and store are returned unchanged with no
write. -/
theorem c3_billing_period_refresh (sb : Store) (user : AuthedUser)
    (today : Date) :
    ((today.year, today.month)
        = (user.billing_period_start.year, user.billing_period_start.month) →
      refresh_billing_period sb user today = some (user, sb, false)) ∧
    ((today.year, today.month)
        ≠ (user.billing_period_start.year, user.billing_period_start.month) →
      ∀ u' sb' w, refresh_billing_period sb user today = some (u', sb', w) →
        u'.used_tokens_this_period = 0 ∧
        u'.billing_period_start = today ∧
        w = true ∧
        (∀ r ∈ sb'.users, r.id = user.user_row_id →
          r.used_tokens_this_period = 0 ∧ r.billing_period_start = today) ∧
        sb'.usage_logs = sb.usage_logs ∧
        sb'.user_monthly_usage = sb.user_monthly_usage) := by
  constructor
  · intro h
    unfold refresh_billing_period
    rw [if_neg (not_not_intro h)]
  · intro hne u' sb' w h
    unfold refresh_billing_period at h
    rw [if_pos hne] at h
    dsimp only at h
    split at h
    · exact Option.noConfusion h
    · rename_i row hfind
      simp only [Option.some.injEq, Prod.mk.injEq] at h
      obtain ⟨hu, hsb, hw⟩ := h
      subst hu
      subst hsb
      refine ⟨rfl, rfl, hw.symm, ?_, rfl, rfl⟩
      intro r hr hid
      simp only [List.mem_map] at hr
      obtain ⟨r0, hr0, rfl⟩ := hr
      by_cases h0 : r0.id = user.user_row_id
      · simp [h0]
      · rw [if_neg h0] at hid
        exact absurd hid h0

/-- Witness for C3: in the same period (January) the sample account is
returned unchanged with no write; across the January→February boundary the
refreshed account has zero usage and `billing_period_start` equal to the
literal date 2024-02-10. -/
theorem c3_billing_period_refresh_witness :
    refresh_billing_period sampleStore sampleUser sampleJan
        = some (sampleUser, sampleStore, false) ∧
    (⟨"auth-1", 1, 1000, 0, sampleFeb⟩ :
        AuthedUser).used_tokens_this_period = 0 ∧
    (⟨"auth-1", 1, 1000, 0, sampleFeb⟩ :
        AuthedUser).billing_period_start = sampleFeb := by
  refine ⟨(c3_billing_period_refresh sampleStore sampleUser sampleJan).1
      (by decide), ?_, ?_⟩
  · exact ((c3_billing_period_refresh sampleStore sampleUser sampleFeb).2
      (by decide) ⟨"auth-1", 1, 1000, 0, sampleFeb⟩
      ⟨[⟨1, 1000, 0, sampleFeb⟩], [], [], 7⟩ true (by decide)).1
  · exact ((c3_billing_period_refresh sampleStore sampleUser sampleFeb).2
      (by decide) ⟨"auth-1", 1, 1000, 0, sampleFeb⟩
      ⟨[⟨1, 1000, 0, sampleFeb⟩], [], [], 7⟩ true (by decide)).2.1

/-- C7 — Refresh idempotence: whatever `refresh_billing_period` returns, a
second application at the same `today` is a no-op: it performs no store
write (flag `false`) and returns the identical account snapshot and store. -/
theorem c7_refresh_idempotent (sb : Store) (user a1 : AuthedUser) (s1 : Store)
    (today : Date) (w : Bool)
    (h : refresh_billing_period sb user today = some (a1, s1, w)) :
    refresh_billing_period s1 a1 today = some (a1, s1, false) := by
  unfold refresh_billing_period at h ⊢
  by_cases hc : (today.year, today.month)
      ≠ (user.billing_period_start.year, user.billing_period_start.month)
  · rw [if_pos hc] at h
    dsimp only at h
    split at h
    · exact Option.noConfusion h
    · rename_i row hfind
      simp only [Option.some.injEq, Prod.mk.injEq] at h
      obtain ⟨hu, hsb, hw⟩ := h
      subst hu
      subst hsb
      rw [if_neg (not_not_intro rfl)]
  · rw [if_neg hc] at h
    simp only [Option.some.injEq, Prod.mk.injEq] at h
    obtain ⟨hu, hsb, hw⟩ := h
    subst hu
    subst hsb
    rw [if_neg hc]

/-- Witness for C7: after the sample account rolls over into February, a
second refresh at the same date returns the identical snapshot and store
with no write. -/
theorem c7_refresh_idempotent_witness :
    refresh_billing_period ⟨[⟨1, 1000, 0, sampleFeb⟩], [], [], 7⟩
        ⟨"auth-1", 1, 1000, 0, sampleFeb⟩ sampleFeb
      = some (⟨"auth-1", 1, 1000, 0, sampleFeb⟩,
              ⟨[⟨1, 1000, 0, sampleFeb⟩], [], [], 7⟩, false) :=
  c7_refresh_idempotent sampleStore sampleUser
    ⟨"auth-1", 1, 1000, 0, sampleFeb⟩ ⟨[⟨1, 1000, 0, sampleFeb⟩], [], [], 7⟩
    sampleFeb true (by decide)

/-! ## Observer functions over the store -/

/-- The aggregate-row lookup the upsert performs:
`select * from user_monthly_usage where user_id = uid and period_start = ps`
(first match). -/
def agg_lookup (l : List MonthlyUsageRow) (uid : Nat) (ps : Date) :
    Option MonthlyUsageRow :=
  l.find? (fun r => decide (r.user_id = uid ∧ r.period_start = ps))

/-- `total_tokens` recorded for `(uid, ps)`, `0` when no row exists. -/
def agg_total_tokens (l : List MonthlyUsageRow) (uid : Nat) (ps : Date) : Int :=
  match agg_lookup l uid ps with
  | some r => r.total_tokens
  | none => 0

/-- `total_requests` recorded for `(uid, ps)`, `0` when no row exists. -/
def agg_total_requests (l : List MonthlyUsageRow) (uid : Nat) (ps : Date) : Int :=
  match agg_lookup l uid ps with
  | some r => r.total_requests
  | none => 0

/-- `users` table lookup by row id (first match). -/
def user_lookup (l : List UserRow) (rid : Nat) : Option UserRow :=
  l.find? (fun r => decide (r.id = rid))

/-- At most one aggregate row per `(user_id, period_start)` key. -/
def aggKeyUnique (l : List MonthlyUsageRow) : Prop :=
  l.Pairwise fun r s => ¬(r.user_id = s.user_id ∧ r.period_start = s.period_start)

/-! ## Scenario lemmas about the pipeline -/

/-- Every text costs at least one token. -/
theorem one_le_estimate_tokens (text : String) : 1 ≤ estimate_tokens text := by
  rw [estimate_tokens_eq]
  exact le_max_left 1 _

/-- Same-period refresh is the identity with no write. -/
theorem refresh_same_period (sb : Store) (user : AuthedUser) (today : Date)
    (h : (today.year, today.month)
      = (user.billing_period_start.year, user.billing_period_start.month)) :
    refresh_billing_period sb user today = some (user, sb, false) := by
  unfold refresh_billing_period
  rw [if_neg (not_not_intro h)]

/-- A period refresh only ever writes the `users` table. -/
theorem refresh_preserves_tables (sb : Store) (user : AuthedUser) (today : Date)
    (u : AuthedUser) (sb1 : Store) (w : Bool)
    (h : refresh_billing_period sb user today = some (u, sb1, w)) :
    sb1.usage_logs = sb.usage_logs ∧
    sb1.user_monthly_usage = sb.user_monthly_usage ∧
    sb1.next_agg_id = sb.next_agg_id := by
  unfold refresh_billing_period at h
  by_cases hc : (today.year, today.month)
      ≠ (user.billing_period_start.year, user.billing_period_start.month)
  · rw [if_pos hc] at h
    dsimp only at h
    split at h
    · exact Option.noConfusion h
    · simp only [Option.some.injEq, Prod.mk.injEq] at h
      obtain ⟨hu, hsb, hw⟩ := h
      subst hsb
      exact ⟨rfl, rfl, rfl⟩
  · rw [if_neg hc] at h
    simp only [Option.some.injEq, Prod.mk.injEq] at h
    obtain ⟨hu, hsb, hw⟩ := h
    subst hsb
    exact ⟨rfl, rfl, rfl⟩

/-- A quota-gate rejection: the whole pipeline stops right after the refresh
and returns the quota error carrying `remaining` and the requested cost. -/
theorem translate_service_reject (sb : Store) (user0 u : AuthedUser)
    (sb1 : Store) (w : Bool) (text target_lang : String) (today : Date)
    (prov : Bool × String) (now : Nat)
    (href : refresh_billing_period sb user0 today = some (u, sb1, w))
    (hgt : u.monthly_quota_tokens - u.used_tokens_this_period
      < (estimate_tokens text : Int)) :
    translate_service sb user0 text target_lang today prov now
      = some (.error (.quotaInsufficient
          (u.monthly_quota_tokens - u.used_tokens_this_period)
          (estimate_tokens text)), sb1) := by
  unfold translate_service
  rw [href]
  dsimp only
  rw [if_pos hgt]

/-- An admitted request whose provider call fails: the pipeline returns the
provider error and performs no ledger write. -/
theorem translate_service_provider_fail (sb : Store) (user0 u : AuthedUser)
    (sb1 : Store) (w : Bool) (text target_lang msg : String) (today : Date)
    (now : Nat)
    (href : refresh_billing_period sb user0 today = some (u, sb1, w))
    (hadm : (estimate_tokens text : Int)
      ≤ u.monthly_quota_tokens - u.used_tokens_this_period) :
    translate_service sb user0 text target_lang today (false, msg) now
      = some (.error (.providerFailure msg), sb1) := by
  unfold translate_service
  rw [href]
  dsimp only
  rw [if_neg (not_lt.mpr hadm)]

/-- An admitted request whose provider call succeeds: the pipeline returns
the translation with the new remaining balance, and the final store is the
log append, then the aggregate upsert keyed by the month start, then the
account overwrite to `used_before + est`. -/
theorem translate_service_success (sb : Store) (user0 u : AuthedUser)
    (sb1 : Store) (w : Bool) (text target_lang result : String) (today : Date)
    (now : Nat)
    (href : refresh_billing_period sb user0 today = some (u, sb1, w))
    (hadm : (estimate_tokens text : Int)
      ≤ u.monthly_quota_tokens - u.used_tokens_this_period) :
    translate_service sb user0 text target_lang today (true, result) now
      = some (.ok (result, estimate_tokens text,
          u.monthly_quota_tokens
            - (u.used_tokens_this_period + (estimate_tokens text : Int))),
        update_user_used
          (upsert_monthly_usage
            (insert_usage_log sb1
              ⟨u.user_row_id, "glm-4.5", text.length, estimate_tokens text, 0,
               text, result⟩)
            u.user_row_id
            ⟨u.billing_period_start.year, u.billing_period_start.month, 1⟩
            (estimate_tokens text) now)
          u.user_row_id
          (u.used_tokens_this_period + (estimate_tokens text : Int))) := by
  unfold translate_service
  rw [href]
  dsimp only
  rw [if_neg (not_lt.mpr hadm)]

/-- Effect of the aggregate upsert on the `(uid, ps)` lookup: an existing
row is found updated (totals incremented, `updated_at` refreshed), and with
no existing row the freshly inserted row is found. -/
theorem agg_lookup_upsert (sb : Store) (uid : Nat) (ps : Date)
    (est now : Nat) :
    agg_lookup (upsert_monthly_usage sb uid ps est now).user_monthly_usage
        uid ps
      = match agg_lookup sb.user_monthly_usage uid ps with
        | some row => some { row with
            total_tokens := row.total_tokens + (est : Int),
            total_requests := row.total_requests + 1,
            updated_at := now }
        | none => some ⟨sb.next_agg_id, uid, ps, (est : Int), 1, now⟩ := by
  unfold upsert_monthly_usage agg_lookup
  cases hfind : sb.user_monthly_usage.find?
      (fun r => decide (r.user_id = uid ∧ r.period_start = ps)) with
  | none =>
      simp only [hfind]
      rw [List.find?_append, hfind]
      simp
  | some row =>
      simp only [hfind]
      rw [List.find?_map]
      have hp : (fun r : MonthlyUsageRow =>
              decide (r.user_id = uid ∧ r.period_start = ps))
            ∘ (fun r : MonthlyUsageRow => if r.id = row.id then
                { r with total_tokens := row.total_tokens + (est : Int),
                         total_requests := row.total_requests + 1,
                         updated_at := now }
              else r)
          = fun r => decide (r.user_id = uid ∧ r.period_start = ps) := by
        funext r
        by_cases h : r.id = row.id <;> simp [Function.comp, h]
      rw [hp, hfind]
      simp

/-- The upsert adds exactly `est` to the recorded `total_tokens` of its key
(an absent row counts as zero). -/
theorem agg_total_tokens_upsert (sb : Store) (uid : Nat) (ps : Date)
    (est now : Nat) :
    agg_total_tokens (upsert_monthly_usage sb uid ps est now).user_monthly_usage
        uid ps
      = agg_total_tokens sb.user_monthly_usage uid ps + (est : Int) := by
  unfold agg_total_tokens
  rw [agg_lookup_upsert]
  cases hl : agg_lookup sb.user_monthly_usage uid ps <;> simp

/-- The upsert adds exactly one to the recorded `total_requests` of its key. -/
theorem agg_total_requests_upsert (sb : Store) (uid : Nat) (ps : Date)
    (est now : Nat) :
    agg_total_requests
        (upsert_monthly_usage sb uid ps est now).user_monthly_usage uid ps
      = agg_total_requests sb.user_monthly_usage uid ps + 1 := by
  unfold agg_total_requests
  rw [agg_lookup_upsert]
  cases hl : agg_lookup sb.user_monthly_usage uid ps <;> simp

/-- The upsert preserves key-uniqueness of the aggregate table. -/
theorem upsert_aggKeyUnique (sb : Store) (uid : Nat) (ps : Date)
    (est now : Nat) (h : aggKeyUnique sb.user_monthly_usage) :
    aggKeyUnique
      (upsert_monthly_usage sb uid ps est now).user_monthly_usage := by
  unfold upsert_monthly_usage
  cases hfind : sb.user_monthly_usage.find?
      (fun r => decide (r.user_id = uid ∧ r.period_start = ps)) with
  | some row =>
      simp only [hfind]
      unfold aggKeyUnique at h ⊢
      rw [List.pairwise_map]
      refine h.imp ?_
      intro a b hab hk
      apply hab
      constructor
      · have ha : ∀ c : MonthlyUsageRow,
            ((if c.id = row.id then
                { c with total_tokens := row.total_tokens + (est : Int),
                         total_requests := row.total_requests + 1,
                         updated_at := now }
              else c) : MonthlyUsageRow).user_id = c.user_id := by
          intro c
          by_cases hc : c.id = row.id <;> simp [hc]
        rw [← ha a, ← ha b]
        exact hk.1
      · have hb : ∀ c : MonthlyUsageRow,
            ((if c.id = row.id then
                { c with total_tokens := row.total_tokens + (est : Int),
                         total_requests := row.total_requests + 1,
                         updated_at := now }
              else c) : MonthlyUsageRow).period_start = c.period_start := by
          intro c
          by_cases hc : c.id = row.id <;> simp [hc]
        rw [← hb a, ← hb b]
        exact hk.2
  | none =>
      simp only [hfind]
      unfold aggKeyUnique at h ⊢
      rw [List.pairwise_append]
      refine ⟨h, List.pairwise_singleton _ _, ?_⟩
      intro a ha b hb
      simp only [List.mem_singleton] at hb
      subst hb
      intro hk
      have hnone := List.find?_eq_none.mp hfind a ha
      simp only [decide_eq_true_eq] at hnone
      exact hnone ⟨hk.1, hk.2⟩

/-- The aggregate upsert never touches the log table. -/
theorem upsert_preserves_logs (sb : Store) (uid : Nat) (ps : Date)
    (est now : Nat) :
    (upsert_monthly_usage sb uid ps est now).usage_logs = sb.usage_logs := by
  unfold upsert_monthly_usage
  cases hfind : sb.user_monthly_usage.find?
      (fun r => decide (r.user_id = uid ∧ r.period_start = ps)) <;>
    simp [hfind]

/-- A user one token short of the quota: quota 1000, used 999, January. -/
def sampleUser2 : AuthedUser := ⟨"auth-1", 1, 1000, 999, sampleJan⟩

/-- The store matching `sampleUser2`. -/
def sampleStore2 : Store := ⟨[⟨1, 1000, 999, sampleJan⟩], [], [], 7⟩

/-- The store after the sample committed run used in the C2 witness. -/
def c2FinalStore : Store :=
  ⟨[⟨1, 1000, 902, sampleJan⟩], [⟨1, "glm-4.5", 2, 2, 0, "ab", "hi"⟩],
   [⟨7, 1, ⟨2024, 1, 1⟩, 2, 1, 0⟩], 8⟩

/-- C1 — Quota Gate: with `remaining = monthly_quota_tokens -
used_tokens_this_period` on the refreshed snapshot, a request is rejected
with a quota error carrying exactly `remaining` and the requested cost
whenever the cost exceeds `remaining`, and is admitted (no quota error can
be produced) whenever the cost is at most `remaining`. -/
theorem c1_quota_gate (sb : Store) (user0 u : AuthedUser) (sb1 : Store)
    (w : Bool) (text target_lang : String) (today : Date)
    (prov : Bool × String) (now : Nat)
    (href : refresh_billing_period sb user0 today = some (u, sb1, w)) :
    (u.monthly_quota_tokens - u.used_tokens_this_period
        < (estimate_tokens text : Int) →
      translate_service sb user0 text target_lang today prov now
        = some (.error (.quotaInsufficient
            (u.monthly_quota_tokens - u.used_tokens_this_period)
            (estimate_tokens text)), sb1)) ∧
    ((estimate_tokens text : Int)
        ≤ u.monthly_quota_tokens - u.used_tokens_this_period →
      ∀ rem req sb',
        translate_service sb user0 text target_lang today prov now
          ≠ some (.error (.quotaInsufficient rem req), sb')) := by
  constructor
  · intro hgt
    exact translate_service_reject sb user0 u sb1 w text target_lang today
      prov now href hgt
  · intro hadm rem req sb' hcontra
    obtain ⟨ok, result⟩ := prov
    cases ok
    · rw [translate_service_provider_fail sb user0 u sb1 w text target_lang
        result today now href hadm] at hcontra
      simp at hcontra
    · rw [translate_service_success sb user0 u sb1 w text target_lang
        result today now href hadm] at hcontra
      simp at hcontra

/-- Witness for C1: the sample user with 1 remaining token requesting a
2-token text is rejected with the quota error carrying remaining 1 and the
requested cost. -/
theorem c1_quota_gate_witness :
    translate_service sampleStore2 sampleUser2 "ab" "EN" sampleJan
        (true, "hi") 0
      = some (.error (.quotaInsufficient 1 (estimate_tokens "ab")),
              sampleStore2) :=
  (c1_quota_gate sampleStore2 sampleUser2 sampleUser2 sampleStore2 false
    "ab" "EN" sampleJan (true, "hi") 0 (by decide)).1
    (by rw [estimate_tokens_eq]; decide)

/-- C2 — Usage Ledger commit postcondition: an admitted request that the
provider completes successfully returns
`remaining = monthly_quota_tokens - (used_before + estimated_tokens)`
(`used_before` being the refreshed snapshot's usage when the commit began),
appends exactly one Usage Log Entry recording that `estimated_tokens`, and
increases the Monthly Usage Aggregate's `total_tokens` and `total_requests`
at the month-start key by `estimated_tokens` and 1 respectively. -/
theorem c2_ledger_commit (sb : Store) (user0 u : AuthedUser) (sb1 sb' : Store)
    (w : Bool) (text target_lang result rtext : String) (today : Date)
    (now rest : Nat) (rrem : Int)
    (href : refresh_billing_period sb user0 today = some (u, sb1, w))
    (hrun : translate_service sb user0 text target_lang today (true, result)
      now = some (.ok (rtext, rest, rrem), sb')) :
    rtext = result ∧
    rest = estimate_tokens text ∧
    rrem = u.monthly_quota_tokens
      - (u.used_tokens_this_period + (estimate_tokens text : Int)) ∧
    sb'.usage_logs = sb.usage_logs
      ++ [⟨u.user_row_id, "glm-4.5", text.length, estimate_tokens text, 0,
           text, result⟩] ∧
    agg_total_tokens sb'.user_monthly_usage u.user_row_id
        ⟨u.billing_period_start.year, u.billing_period_start.month, 1⟩
      = agg_total_tokens sb.user_monthly_usage u.user_row_id
          ⟨u.billing_period_start.year, u.billing_period_start.month, 1⟩
        + (estimate_tokens text : Int) ∧
    agg_total_requests sb'.user_monthly_usage u.user_row_id
        ⟨u.billing_period_start.year, u.billing_period_start.month, 1⟩
      = agg_total_requests sb.user_monthly_usage u.user_row_id
          ⟨u.billing_period_start.year, u.billing_period_start.month, 1⟩
        + 1 := by
  obtain ⟨hlogs1, hagg1, -⟩ :=
    refresh_preserves_tables sb user0 today u sb1 w href
  by_cases hadm : (estimate_tokens text : Int)
      ≤ u.monthly_quota_tokens - u.used_tokens_this_period
  · rw [translate_service_success sb user0 u sb1 w text target_lang result
      today now href hadm] at hrun
    simp only [Option.some.injEq, Prod.mk.injEq, Except.ok.injEq] at hrun
    obtain ⟨⟨hrt, hre, hrr⟩, hsb⟩ := hrun
    subst hsb
    refine ⟨hrt.symm, hre.symm, hrr.symm, ?_, ?_, ?_⟩
    · show (upsert_monthly_usage _ _ _ _ _).usage_logs = _
      rw [upsert_preserves_logs]
      show sb1.usage_logs ++ _ = _
      rw [hlogs1]
    · show agg_total_tokens (upsert_monthly_usage _ _ _ _ _).user_monthly_usage
          _ _ = _
      rw [agg_total_tokens_upsert]
      show agg_total_tokens sb1.user_monthly_usage _ _ + _ = _
      rw [hagg1]
    · show agg_total_requests
          (upsert_monthly_usage _ _ _ _ _).user_monthly_usage _ _ = _
      rw [agg_total_requests_upsert]
      show agg_total_requests sb1.user_monthly_usage _ _ + _ = _
      rw [hagg1]
  · rw [translate_service_reject sb user0 u sb1 w text target_lang today
      (true, result) now href (not_le.mp hadm)] at hrun
    simp at hrun

/-- Witness for C2: the sample user (quota 1000, used 900) translating a
2-character text ends with one log entry of 2 tokens, aggregate totals
increased from 0 to 2 tokens and 1 request, and remaining 98. -/
theorem c2_ledger_commit_witness :
    c2FinalStore.usage_logs = sampleStore.usage_logs
      ++ [⟨1, "glm-4.5", 2, 2, 0, "ab", "hi"⟩] ∧
    agg_total_tokens c2FinalStore.user_monthly_usage 1 ⟨2024, 1, 1⟩
      = agg_total_tokens sampleStore.user_monthly_usage 1 ⟨2024, 1, 1⟩ + 2 ∧
    agg_total_requests c2FinalStore.user_monthly_usage 1 ⟨2024, 1, 1⟩
      = agg_total_requests sampleStore.user_monthly_usage 1 ⟨2024, 1, 1⟩
        + 1 ∧
    (98 : Int) = 1000 - (900 + 2) := by
  have hest : estimate_tokens "ab" = 2 := by
    rw [estimate_tokens_eq]
    rfl
  have hrun : translate_service sampleStore sampleUser "ab" "EN" sampleJan
      (true, "hi") 0 = some (.ok ("hi", 2, 98), c2FinalStore) := by
    rw [translate_service_success sampleStore sampleUser sampleUser
      sampleStore false "ab" "EN" "hi" sampleJan 0 (by decide)
      (by rw [estimate_tokens_eq]; decide), hest]
    rfl
  obtain ⟨-, -, -, hlogs, htok, hreq⟩ :=
    c2_ledger_commit sampleStore sampleUser sampleUser sampleStore
      c2FinalStore false "ab" "EN" "hi" "hi" sampleJan 0 2 98 (by decide) hrun
  rw [hest] at hlogs htok
  exact ⟨hlogs, htok, hreq, by norm_num⟩

/-- The sample committed run: quota 1000, used 900, text "ab" (2 tokens),
provider succeeds with "hi"; ends at `c2FinalStore` with remaining 98. -/
theorem sample_success_run :
    translate_service sampleStore sampleUser "ab" "EN" sampleJan
      (true, "hi") 0 = some (.ok ("hi", 2, 98), c2FinalStore) := by
  have hest : estimate_tokens "ab" = 2 := by
    rw [estimate_tokens_eq]
    rfl
  rw [translate_service_success sampleStore sampleUser sampleUser
    sampleStore false "ab" "EN" "hi" sampleJan 0 (by decide)
    (by rw [estimate_tokens_eq]; decide), hest]
  rfl

/-- A user exactly at quota: quota 1000, used 1000, January. -/
def sampleUser3 : AuthedUser := ⟨"auth-1", 1, 1000, 1000, sampleJan⟩

/-- The store matching `sampleUser3`. -/
def sampleStore3 : Store := ⟨[⟨1, 1000, 1000, sampleJan⟩], [], [], 7⟩

/-- C9 — Sequential quota invariant: every text costs at least one token,
so a refreshed account with `used ≥ quota` is always rejected; and a single
successful (non-concurrent) run starting from `used ≤ quota` returns
`remaining_tokens ≥ 0`, i.e. ends with the new usage at most the quota. -/
theorem c9_sequential_quota_invariant (sb : Store) (user0 u : AuthedUser)
    (sb1 : Store) (w : Bool) (text target_lang : String) (today : Date)
    (prov : Bool × String) (now : Nat)
    (href : refresh_billing_period sb user0 today = some (u, sb1, w)) :
    1 ≤ estimate_tokens text ∧
    (u.monthly_quota_tokens ≤ u.used_tokens_this_period →
      translate_service sb user0 text target_lang today prov now
        = some (.error (.quotaInsufficient
            (u.monthly_quota_tokens - u.used_tokens_this_period)
            (estimate_tokens text)), sb1)) ∧
    (∀ rtext rest rrem sb',
      translate_service sb user0 text target_lang today prov now
        = some (.ok (rtext, rest, rrem), sb') →
      0 ≤ rrem ∧
      u.used_tokens_this_period + (estimate_tokens text : Int)
        ≤ u.monthly_quota_tokens) := by
  have hone : (1 : Int) ≤ (estimate_tokens text : Int) := by
    exact_mod_cast one_le_estimate_tokens text
  refine ⟨one_le_estimate_tokens text, fun hle => ?_, ?_⟩
  · exact translate_service_reject sb user0 u sb1 w text target_lang today
      prov now href (by omega)
  · intro rtext rest rrem sb' hrun
    by_cases hadm : (estimate_tokens text : Int)
        ≤ u.monthly_quota_tokens - u.used_tokens_this_period
    · obtain ⟨ok, result⟩ := prov
      cases ok
      · rw [translate_service_provider_fail sb user0 u sb1 w text target_lang
          result today now href hadm] at hrun
        simp at hrun
      · rw [translate_service_success sb user0 u sb1 w text target_lang
          result today now href hadm] at hrun
        simp only [Option.some.injEq, Prod.mk.injEq, Except.ok.injEq] at hrun
        obtain ⟨⟨-, -, hrr⟩, -⟩ := hrun
        constructor
        · omega
        · omega
    · rw [translate_service_reject sb user0 u sb1 w text target_lang today
        prov now href (not_le.mp hadm)] at hrun
      simp at hrun

/-- Witness for C9: a 2-character text costs at least one token; the
at-quota sample user is rejected with remaining 0; the committed sample
run returns a non-negative remaining balance. -/
theorem c9_sequential_quota_invariant_witness :
    1 ≤ estimate_tokens "ab" ∧
    translate_service sampleStore3 sampleUser3 "ab" "EN" sampleJan
        (true, "hi") 0
      = some (.error (.quotaInsufficient 0 (estimate_tokens "ab")),
              sampleStore3) ∧
    (0 : Int) ≤ 98 := by
  refine ⟨(c9_sequential_quota_invariant sampleStore sampleUser sampleUser
      sampleStore false "ab" "EN" sampleJan (true, "hi") 0 (by decide)).1,
    (c9_sequential_quota_invariant sampleStore3 sampleUser3 sampleUser3
      sampleStore3 false "ab" "EN" sampleJan (true, "hi") 0 (by decide)).2.1
      (by decide), ?_⟩
  exact ((c9_sequential_quota_invariant sampleStore sampleUser sampleUser
    sampleStore false "ab" "EN" sampleJan (true, "hi") 0 (by decide)).2.2
    "hi" 2 98 c2FinalStore sample_success_run).1

/-- Counterexample for C4 as stated: a user with quota 1, used 5, period
started 2024-01-15, requests a 2-token text on 2024-02-10.  The quota gate
rejects the request (2 > remaining 1), yet `used_tokens_this_period` in the
store has changed from 5 to 0 (and `billing_period_start` moved to the
request date): the billing-period refresh that precedes the gate wrote to
the account even though the request was rejected, contradicting
"used_tokens_this_period is not changed" for rejected requests. -/
theorem c4_counterexample :
    translate_service ⟨[⟨1, 1, 5, sampleJan⟩], [], [], 7⟩
        ⟨"auth-1", 1, 1, 5, sampleJan⟩ "ab" "EN" sampleFeb (true, "hi") 0
      = some (.error (.quotaInsufficient 1 (estimate_tokens "ab")),
              ⟨[⟨1, 1, 0, sampleFeb⟩], [], [], 7⟩) ∧
    estimate_tokens "ab" = 2 ∧
    user_lookup ([⟨1, 1, 5, sampleJan⟩] : List UserRow) 1
      = some ⟨1, 1, 5, sampleJan⟩ ∧
    user_lookup ([⟨1, 1, 0, sampleFeb⟩] : List UserRow) 1
      = some ⟨1, 1, 0, sampleFeb⟩ ∧
    (5 : Int) ≠ 0 := by
  have hest : estimate_tokens "ab" = 2 := by
    rw [estimate_tokens_eq]
    rfl
  refine ⟨?_, hest, by decide, by decide, by decide⟩
  have href : refresh_billing_period ⟨[⟨1, 1, 5, sampleJan⟩], [], [], 7⟩
      ⟨"auth-1", 1, 1, 5, sampleJan⟩ sampleFeb
      = some (⟨"auth-1", 1, 1, 0, sampleFeb⟩,
              ⟨[⟨1, 1, 0, sampleFeb⟩], [], [], 7⟩, true) := by decide
  exact translate_service_reject _ _ _ _ _ _ _ _ _ _ href
    (by rw [hest]; decide)

/-- C4 (amended) — No ledger writes on failure: a request that ends in an
error (quota rejection or provider failure) performs no ledger write: the
final store is exactly the post-refresh store, with the log table and the
aggregate table identical to the initial store's (only the billing-period
refresh preceding the gate may have reset the account's
`used_tokens_this_period` to 0).  The two failure kinds are surfaced
distinguishably (402 vs 500), and an admitted request whose provider fails
yields the provider-failure error carrying the provider's message. -/
theorem c4_no_ledger_writes_on_failure (sb : Store) (user0 u : AuthedUser)
    (sb1 sb' : Store) (w : Bool) (text target_lang : String) (today : Date)
    (prov : Bool × String) (now : Nat) (e : TranslateError)
    (href : refresh_billing_period sb user0 today = some (u, sb1, w))
    (hrun : translate_service sb user0 text target_lang today prov now
      = some (.error e, sb')) :
    sb' = sb1 ∧
    sb'.usage_logs = sb.usage_logs ∧
    sb'.user_monthly_usage = sb.user_monthly_usage ∧
    (prov.1 = false →
      (estimate_tokens text : Int)
          ≤ u.monthly_quota_tokens - u.used_tokens_this_period →
      e = .providerFailure prov.2 ∧
      translate_error_detail e = "翻译失败: " ++ prov.2) ∧
    (∀ rem req msg, translate_error_status (.quotaInsufficient rem req)
      ≠ translate_error_status (.providerFailure msg)) := by
  obtain ⟨hlogs1, hagg1, -⟩ :=
    refresh_preserves_tables sb user0 today u sb1 w href
  have hmain : sb' = sb1 ∧
      (prov.1 = false →
        (estimate_tokens text : Int)
            ≤ u.monthly_quota_tokens - u.used_tokens_this_period →
        e = .providerFailure prov.2) := by
    obtain ⟨ok, result⟩ := prov
    by_cases hadm : (estimate_tokens text : Int)
        ≤ u.monthly_quota_tokens - u.used_tokens_this_period
    · cases ok
      · rw [translate_service_provider_fail sb user0 u sb1 w text target_lang
          result today now href hadm] at hrun
        simp only [Option.some.injEq, Prod.mk.injEq, Except.error.injEq]
          at hrun
        exact ⟨hrun.2.symm, fun _ _ => hrun.1.symm⟩
      · rw [translate_service_success sb user0 u sb1 w text target_lang
          result today now href hadm] at hrun
        simp at hrun
    · rw [translate_service_reject sb user0 u sb1 w text target_lang today
        (ok, result) now href (not_le.mp hadm)] at hrun
      simp only [Option.some.injEq, Prod.mk.injEq, Except.error.injEq] at hrun
      exact ⟨hrun.2.symm, fun _ habs => absurd habs hadm⟩
  obtain ⟨hsb, hkind⟩ := hmain
  subst hsb
  refine ⟨rfl, hlogs1, hagg1, fun hf ha => ⟨hkind hf ha, ?_⟩, ?_⟩
  · rw [hkind hf ha]
    rfl
  · intro rem req msg
    simp [translate_error_status]

/-- Witness for C4 (amended): the cross-month rejected run of the
counterexample leaves the log and aggregate tables untouched, and the two
error statuses 402 and 500 are distinct. -/
theorem c4_no_ledger_writes_on_failure_witness :
    (⟨[⟨1, 1, 0, sampleFeb⟩], [], [], 7⟩ : Store).usage_logs
      = (⟨[⟨1, 1, 5, sampleJan⟩], [], [], 7⟩ : Store).usage_logs ∧
    (⟨[⟨1, 1, 0, sampleFeb⟩], [], [], 7⟩ : Store).user_monthly_usage
      = (⟨[⟨1, 1, 5, sampleJan⟩], [], [], 7⟩ : Store).user_monthly_usage ∧
    translate_error_status (.quotaInsufficient 1 2)
      ≠ translate_error_status (.providerFailure "boom") := by
  have hest : estimate_tokens "ab" = 2 := by
    rw [estimate_tokens_eq]
    rfl
  have href : refresh_billing_period ⟨[⟨1, 1, 5, sampleJan⟩], [], [], 7⟩
      ⟨"auth-1", 1, 1, 5, sampleJan⟩ sampleFeb
      = some (⟨"auth-1", 1, 1, 0, sampleFeb⟩,
              ⟨[⟨1, 1, 0, sampleFeb⟩], [], [], 7⟩, true) := by decide
  have hrun : translate_service ⟨[⟨1, 1, 5, sampleJan⟩], [], [], 7⟩
      ⟨"auth-1", 1, 1, 5, sampleJan⟩ "ab" "EN" sampleFeb (true, "hi") 0
      = some (.error (.quotaInsufficient 1 (estimate_tokens "ab")),
              ⟨[⟨1, 1, 0, sampleFeb⟩], [], [], 7⟩) :=
    translate_service_reject _ _ _ _ _ _ _ _ _ _ href (by rw [hest]; decide)
  obtain ⟨-, hlogs, hagg, -, hst⟩ :=
    c4_no_ledger_writes_on_failure ⟨[⟨1, 1, 5, sampleJan⟩], [], [], 7⟩
      ⟨"auth-1", 1, 1, 5, sampleJan⟩ ⟨"auth-1", 1, 1, 0, sampleFeb⟩
      ⟨[⟨1, 1, 0, sampleFeb⟩], [], [], 7⟩
      ⟨[⟨1, 1, 0, sampleFeb⟩], [], [], 7⟩ true "ab" "EN" sampleFeb
      (true, "hi") 0 (.quotaInsufficient 1 (estimate_tokens "ab")) href hrun
  exact ⟨hlogs, hagg, hst 1 2 "boom"⟩

/-- A store whose aggregate table already holds a row for the sample key:
row id 7, user 1, period 2024-01-01, 2 tokens over 1 request. -/
def sampleAggStore : Store :=
  ⟨[⟨1, 1000, 900, sampleJan⟩], [], [⟨7, 1, ⟨2024, 1, 1⟩, 2, 1, 0⟩], 8⟩

/-- C6 — Monthly Usage Aggregate invariant: the upsert keyed on
`(user, period_start)` updates an existing row in place (totals
incremented, `updated_at` refreshed) and otherwise inserts exactly one
fresh row with `total_tokens = est` and `total_requests = 1`; hence both
the upsert and the whole translate pipeline preserve at-most-one-row-per-key
of the aggregate table; and a committed run always leaves a row at the key
`(user, first day of billing_period_start's month)`. -/
theorem c6_monthly_aggregate_invariant :
    (∀ (sb : Store) (uid : Nat) (ps : Date) (est now : Nat) row,
      agg_lookup sb.user_monthly_usage uid ps = some row →
      (upsert_monthly_usage sb uid ps est now).user_monthly_usage
        = sb.user_monthly_usage.map fun r =>
            if r.id = row.id then
              { r with total_tokens := row.total_tokens + (est : Int),
                       total_requests := row.total_requests + 1,
                       updated_at := now }
            else r) ∧
    (∀ (sb : Store) (uid : Nat) (ps : Date) (est now : Nat),
      agg_lookup sb.user_monthly_usage uid ps = none →
      (upsert_monthly_usage sb uid ps est now).user_monthly_usage
        = sb.user_monthly_usage
          ++ [⟨sb.next_agg_id, uid, ps, (est : Int), 1, now⟩]) ∧
    (∀ (sb : Store) (uid : Nat) (ps : Date) (est now : Nat),
      aggKeyUnique sb.user_monthly_usage →
      aggKeyUnique (upsert_monthly_usage sb uid ps est now).user_monthly_usage) ∧
    (∀ (sb : Store) (user0 : AuthedUser) (text target_lang : String)
        (today : Date) (prov : Bool × String) (now : Nat) res sb',
      translate_service sb user0 text target_lang today prov now
        = some (res, sb') →
      aggKeyUnique sb.user_monthly_usage →
      aggKeyUnique sb'.user_monthly_usage) ∧
    (∀ (sb : Store) (user0 u : AuthedUser) (sb1 sb' : Store) (w : Bool)
        (text target_lang result : String) (today : Date) (now : Nat) res,
      refresh_billing_period sb user0 today = some (u, sb1, w) →
      translate_service sb user0 text target_lang today (true, result) now
        = some (.ok res, sb') →
      agg_lookup sb'.user_monthly_usage u.user_row_id
        ⟨u.billing_period_start.year, u.billing_period_start.month, 1⟩
        ≠ none) := by
  refine ⟨?_, ?_, upsert_aggKeyUnique, ?_, ?_⟩
  · intro sb uid ps est now row h
    unfold agg_lookup at h
    unfold upsert_monthly_usage
    rw [h]
  · intro sb uid ps est now h
    unfold agg_lookup at h
    unfold upsert_monthly_usage
    rw [h]
  · intro sb user0 text target_lang today prov now res sb' hrun huniq
    cases hr : refresh_billing_period sb user0 today with
    | none =>
        unfold translate_service at hrun
        rw [hr] at hrun
        exact Option.noConfusion hrun
    | some out =>
        obtain ⟨u, sb1, w⟩ := out
        obtain ⟨-, hagg1, -⟩ :=
          refresh_preserves_tables sb user0 today u sb1 w hr
        by_cases hadm : (estimate_tokens text : Int)
            ≤ u.monthly_quota_tokens - u.used_tokens_this_period
        · obtain ⟨ok, result⟩ := prov
          cases ok
          · rw [translate_service_provider_fail sb user0 u sb1 w text
              target_lang result today now hr hadm] at hrun
            simp only [Option.some.injEq, Prod.mk.injEq] at hrun
            rw [← hrun.2, hagg1]
            exact huniq
          · rw [translate_service_success sb user0 u sb1 w text target_lang
              result today now hr hadm] at hrun
            simp only [Option.some.injEq, Prod.mk.injEq] at hrun
            rw [← hrun.2]
            show aggKeyUnique (upsert_monthly_usage _ _ _ _ _).user_monthly_usage
            apply upsert_aggKeyUnique
            show aggKeyUnique sb1.user_monthly_usage
            rw [hagg1]
            exact huniq
        · rw [translate_service_reject sb user0 u sb1 w text target_lang today
            prov now hr (not_le.mp hadm)] at hrun
          simp only [Option.some.injEq, Prod.mk.injEq] at hrun
          rw [← hrun.2, hagg1]
          exact huniq
  · intro sb user0 u sb1 sb' w text target_lang result today now res hr hrun
    by_cases hadm : (estimate_tokens text : Int)
        ≤ u.monthly_quota_tokens - u.used_tokens_this_period
    · rw [translate_service_success sb user0 u sb1 w text target_lang result
        today now hr hadm] at hrun
      simp only [Option.some.injEq, Prod.mk.injEq] at hrun
      rw [← hrun.2]
      show agg_lookup (upsert_monthly_usage _ _ _ _ _).user_monthly_usage _ _
          ≠ none
      rw [agg_lookup_upsert]
      cases agg_lookup (insert_usage_log sb1 _).user_monthly_usage
        u.user_row_id
        ⟨u.billing_period_start.year, u.billing_period_start.month, 1⟩ <;>
        simp
    · rw [translate_service_reject sb user0 u sb1 w text target_lang today
        (true, result) now hr (not_le.mp hadm)] at hrun
      simp at hrun

/-- Witness for C6: updating the existing sample aggregate row increments
it in place; an absent key gets exactly one fresh row; both the upsert and
the sample committed run preserve key-uniqueness; and the committed run
leaves a row at the month-start key. -/
theorem c6_monthly_aggregate_invariant_witness :
    (upsert_monthly_usage sampleAggStore 1 ⟨2024, 1, 1⟩ 3 5).user_monthly_usage
      = [⟨7, 1, ⟨2024, 1, 1⟩, 5, 2, 5⟩] ∧
    (upsert_monthly_usage sampleStore 1 ⟨2024, 1, 1⟩ 2 0).user_monthly_usage
      = [⟨7, 1, ⟨2024, 1, 1⟩, 2, 1, 0⟩] ∧
    aggKeyUnique
      (upsert_monthly_usage sampleStore 1 ⟨2024, 1, 1⟩ 2 0).user_monthly_usage ∧
    aggKeyUnique c2FinalStore.user_monthly_usage ∧
    agg_lookup c2FinalStore.user_monthly_usage 1 ⟨2024, 1, 1⟩ ≠ none := by
  refine ⟨?_, ?_, ?_, ?_, ?_⟩
  · exact (c6_monthly_aggregate_invariant.1 sampleAggStore 1 ⟨2024, 1, 1⟩ 3 5
      ⟨7, 1, ⟨2024, 1, 1⟩, 2, 1, 0⟩ (by decide)).trans (by decide)
  · exact (c6_monthly_aggregate_invariant.2.1 sampleStore 1 ⟨2024, 1, 1⟩ 2 0
      (by decide)).trans (by decide)
  · exact c6_monthly_aggregate_invariant.2.2.1 sampleStore 1 ⟨2024, 1, 1⟩ 2 0
      List.Pairwise.nil
  · exact c6_monthly_aggregate_invariant.2.2.2.1 sampleStore sampleUser "ab"
      "EN" sampleJan (true, "hi") 0 (.ok ("hi", 2, 98)) c2FinalStore
      sample_success_run List.Pairwise.nil
  · exact c6_monthly_aggregate_invariant.2.2.2.2 sampleStore sampleUser
      sampleUser sampleStore c2FinalStore false "ab" "EN" "hi" sampleJan 0
      ("hi", 2, 98) (by decide) sample_success_run

/-- The three ledger writes performed by an admitted, provider-successful
request (log append, aggregate upsert at the month-start key, account
overwrite to `snapshot used + est`), as one store transformer. -/
def ledger_commit_store (sb : Store) (u : AuthedUser) (text result : String)
    (now : Nat) : Store :=
  update_user_used
    (upsert_monthly_usage
      (insert_usage_log sb
        ⟨u.user_row_id, "glm-4.5", text.length, estimate_tokens text, 0,
         text, result⟩)
      u.user_row_id
      ⟨u.billing_period_start.year, u.billing_period_start.month, 1⟩
      (estimate_tokens text) now)
    u.user_row_id
    (u.used_tokens_this_period + (estimate_tokens text : Int))

/-- Each ledger commit adds the request's estimate to the recorded
`total_tokens` at the committing snapshot's month-start key. -/
theorem agg_total_tokens_ledger_commit (sb : Store) (u : AuthedUser)
    (text result : String) (now : Nat) :
    agg_total_tokens
        (ledger_commit_store sb u text result now).user_monthly_usage
        u.user_row_id
        ⟨u.billing_period_start.year, u.billing_period_start.month, 1⟩
      = agg_total_tokens sb.user_monthly_usage u.user_row_id
          ⟨u.billing_period_start.year, u.billing_period_start.month, 1⟩
        + (estimate_tokens text : Int) := by
  show agg_total_tokens
      (upsert_monthly_usage (insert_usage_log sb _) _ _ _ _).user_monthly_usage
      _ _ = _
  rw [agg_total_tokens_upsert]
  rfl

/-- A 120-character text, costing 80 tokens. -/
def sampleText120 : String := String.mk (List.replicate 120 'a')

/-- C8 — Concurrency gap: two requests against the same stale snapshot
(remaining `R = quota - used`), each costing at most `R`, are both admitted
by the Quota Gate and both commit their ledger writes; the aggregate then
records `est1 + est2` additional tokens — so total recorded usage
`used + est1 + est2` can exceed the quota — while the overrun is bounded by
either single request's estimate. -/
theorem c8_concurrency_gap (sb : Store) (user0 : AuthedUser)
    (text1 text2 tl1 tl2 r1 r2 : String) (today : Date) (now1 now2 : Nat)
    (hsame : (today.year, today.month)
      = (user0.billing_period_start.year, user0.billing_period_start.month))
    (hc1 : (estimate_tokens text1 : Int)
      ≤ user0.monthly_quota_tokens - user0.used_tokens_this_period)
    (hc2 : (estimate_tokens text2 : Int)
      ≤ user0.monthly_quota_tokens - user0.used_tokens_this_period) :
    translate_service sb user0 text1 tl1 today (true, r1) now1
      = some (.ok (r1, estimate_tokens text1,
          user0.monthly_quota_tokens - (user0.used_tokens_this_period
            + (estimate_tokens text1 : Int))),
          ledger_commit_store sb user0 text1 r1 now1) ∧
    translate_service (ledger_commit_store sb user0 text1 r1 now1) user0
        text2 tl2 today (true, r2) now2
      = some (.ok (r2, estimate_tokens text2,
          user0.monthly_quota_tokens - (user0.used_tokens_this_period
            + (estimate_tokens text2 : Int))),
          ledger_commit_store (ledger_commit_store sb user0 text1 r1 now1)
            user0 text2 r2 now2) ∧
    agg_total_tokens
        (ledger_commit_store (ledger_commit_store sb user0 text1 r1 now1)
          user0 text2 r2 now2).user_monthly_usage
        user0.user_row_id
        ⟨user0.billing_period_start.year, user0.billing_period_start.month, 1⟩
      = agg_total_tokens sb.user_monthly_usage user0.user_row_id
          ⟨user0.billing_period_start.year, user0.billing_period_start.month,
           1⟩
        + (estimate_tokens text1 : Int) + (estimate_tokens text2 : Int) ∧
    user0.used_tokens_this_period + (estimate_tokens text1 : Int)
        + (estimate_tokens text2 : Int) - user0.monthly_quota_tokens
      ≤ (estimate_tokens text1 : Int) ∧
    user0.used_tokens_this_period + (estimate_tokens text1 : Int)
        + (estimate_tokens text2 : Int) - user0.monthly_quota_tokens
      ≤ (estimate_tokens text2 : Int) := by
  refine ⟨translate_service_success sb user0 user0 sb false text1 tl1 r1
      today now1 (refresh_same_period sb user0 today hsame) hc1,
    translate_service_success (ledger_commit_store sb user0 text1 r1 now1)
      user0 user0 (ledger_commit_store sb user0 text1 r1 now1) false text2
      tl2 r2 today now2
      (refresh_same_period _ user0 today hsame) hc2,
    ?_, by omega, by omega⟩
  rw [agg_total_tokens_ledger_commit, agg_total_tokens_ledger_commit]

set_option maxRecDepth 8192

/-- Witness for C8 (scenario D): quota 1000, used 900 (remaining 100), two
120-character requests costing 80 each — both commit, the aggregate records
160 tokens against a remaining balance of 100, and the recorded total 1060
exceeds the quota by 60 ≤ 80. -/
theorem c8_concurrency_gap_witness :
    agg_total_tokens
        (ledger_commit_store
          (ledger_commit_store sampleStore sampleUser sampleText120 "one" 0)
          sampleUser sampleText120 "two" 0).user_monthly_usage 1 ⟨2024, 1, 1⟩
      = 160 ∧
    (900 : Int) + 80 + 80 - 1000 ≤ 80 ∧
    (1000 : Int) < 900 + 80 + 80 := by
  have hest : estimate_tokens sampleText120 = 80 := by
    rw [estimate_tokens_eq]
    rfl
  have h := c8_concurrency_gap sampleStore sampleUser sampleText120
    sampleText120 "EN" "EN" "one" "two" sampleJan 0 0 (by decide)
    (by rw [estimate_tokens_eq]; decide) (by rw [estimate_tokens_eq]; decide)
  refine ⟨h.2.2.1.trans (by rw [hest]; decide), ?_, by norm_num⟩
  have hb := h.2.2.2.1
  rw [hest] at hb
  exact hb
